import Mathlib

/-!
# Verification of the Vulkan-Foundations core against its specification

Shallow embedding of the core logic of `main.cpp` (the only source file of the
repository): physical-device selection, swapchain parameter negotiation, and
the per-frame synchronization protocol of `draw_frame` / `create_sync_objects`.

Machine integers (`uint32_t`) are modelled as `Nat` with an explicit `% 2^32`
wherever the C++ code performs arithmetic that can wrap; driver queries
(features, properties, queue families, surface support) are modelled as fields
of a snapshot structure, following the spec's `DeviceCandidate` data model
("read-only snapshot taken once at selection time").
-/

namespace VulkanFoundations

/-- Modulus of `uint32_t` arithmetic. -/
def U32 : Nat := 2 ^ 32

/-- `UINT32_MAX`, the sentinel value tested by `choose_swap_extent`. -/
def UINT32_MAX : Nat := 2 ^ 32 - 1

/-- `const uint32_t WIDTH = 800;` (main.cpp line 22). -/
def WIDTH : Nat := 800

/-- `const uint32_t HEIGHT = 600;` (main.cpp line 23). -/
def HEIGHT : Nat := 600

/-- `const int MAX_FRAMES_IN_FLIGHT = 2;` (main.cpp line 16). -/
def MAX_FRAMES_IN_FLIGHT : Nat := 2

/-- `VkPhysicalDeviceType` (the cases printed at main.cpp line 483). -/
inductive DeviceType
  | other
  | integratedGpu
  | discreteGpu
  | virtualGpu
  | cpu
deriving DecidableEq, Repr

/-- One entry of the array returned by `vkGetPhysicalDeviceQueueFamilyProperties`,
restricted to what `find_queue_families` reads: the graphics bit of
`queueFlags` and the surface present support reported by
`vkGetPhysicalDeviceSurfaceSupportKHR` for this family index. -/
structure QueueFamilyProps where
  graphicsBit : Bool
  presentSupport : Bool
deriving DecidableEq, Repr

/-- `struct queue_family_indices` (main.cpp lines 71-80). -/
structure QueueFamilyIndices where
  graphics_family : Option Nat
  present_family : Option Nat
deriving DecidableEq, Repr

/-- `queue_family_indices::is_complete` (main.cpp lines 76-79). -/
def QueueFamilyIndices.is_complete (q : QueueFamilyIndices) : Bool :=
  q.graphics_family.isSome && q.present_family.isSome

/-- `VkSurfaceFormatKHR`: a (format, color space) pair.  Formats and color
spaces are opaque enumerants; we keep them as `Nat` codes. -/
structure SurfaceFormat where
  format : Nat
  colorSpace : Nat
deriving DecidableEq, Repr

/-- A physical-device candidate: the read-only snapshot of every driver query
`rate_device_suitability` / `is_device_suitable` / `find_queue_families` can
make about one `VkPhysicalDevice` (features, properties, queue families,
extension list, surface formats, present modes). -/
structure PhysicalDevice where
  /-- `device_features.geometryShader` (main.cpp line 546). -/
  geometryShader : Bool
  /-- `device_properties.deviceType` (main.cpp line 557). -/
  deviceType : DeviceType
  /-- `device_properties.limits.maxImageDimension2D` (main.cpp line 563), a `uint32_t`. -/
  maxImageDimension2D : Nat
  /-- queue families as enumerated by `vkGetPhysicalDeviceQueueFamilyProperties`. -/
  queueFamilies : List QueueFamilyProps
  /-- names returned by `vkEnumerateDeviceExtensionProperties`. -/
  availableExtensions : List String
  /-- `query_swap_chain_support(device).formats`. -/
  formats : List SurfaceFormat
  /-- `query_swap_chain_support(device).present_modes` (opaque enumerants). -/
  presentModes : List Nat
deriving DecidableEq, Repr

/-- `const std::vector<const char*> device_extensions = { VK_KHR_SWAPCHAIN_EXTENSION_NAME };`
(main.cpp line 30). -/
def device_extensions : List String := ["VK_KHR_swapchain"]

/-- `check_device_extension_support` (main.cpp lines 375-391): the C++ code
builds the set of required extensions, erases every available one and tests
emptiness; that is equivalent to every required extension being contained in
the available list. -/
def check_device_extension_support (d : PhysicalDevice) : Bool :=
  device_extensions.all (fun e => d.availableExtensions.contains e)

/-- The loop body of `find_queue_families` (main.cpp lines 578-600): walk the
queue families with index `i`, record the last graphics-capable and the last
present-capable index seen, stopping early as soon as both are present. -/
def find_queue_families_loop : List QueueFamilyProps → Nat → QueueFamilyIndices → QueueFamilyIndices
  | [], _, acc => acc
  | qf :: rest, i, acc =>
    let acc1 := if qf.graphicsBit then { acc with graphics_family := some i } else acc
    let acc2 := if qf.presentSupport then { acc1 with present_family := some i } else acc1
    if acc2.is_complete then acc2 else find_queue_families_loop rest (i + 1) acc2

/-- `find_queue_families` (main.cpp lines 568-603). -/
def find_queue_families (d : PhysicalDevice) : QueueFamilyIndices :=
  find_queue_families_loop d.queueFamilies 0 ⟨none, none⟩

/-- `is_device_suitable` (main.cpp lines 457-471): queue families complete,
required extensions supported, and (only queried when extensions are
supported) nonempty surface-format and present-mode lists. -/
def is_device_suitable (d : PhysicalDevice) : Bool :=
  let indices := find_queue_families d
  let extensions_supported := check_device_extension_support d
  let swap_chain_adequate :=
    if extensions_supported then !d.formats.isEmpty && !d.presentModes.isEmpty else false
  indices.is_complete && extensions_supported && swap_chain_adequate

/-- `rate_device_suitability` (main.cpp lines 535-566).  `score` is a
`uint32_t`: it starts at 0, gains 1000 for a discrete GPU and then adds
`maxImageDimension2D`, so the final value is the sum reduced mod `2^32`. -/
def rate_device_suitability (d : PhysicalDevice) : Nat :=
  if !d.geometryShader then 0
  else if !is_device_suitable d then 0
  else ((if d.deviceType = DeviceType.discreteGpu then 1000 else 0) + d.maxImageDimension2D) % U32

/-- Spec §4.1 eligibility: a device is eligible exactly when it passes every
hard constraint tested before the scoring additions (geometry shader plus
`is_device_suitable`). -/
def eligible (d : PhysicalDevice) : Bool :=
  d.geometryShader && is_device_suitable d

/-- The two failure exits of `pick_physical_device`:
`"Failed to find GPUs with Vulkan support!"` (main.cpp line 404) and
`"Failed to find a suitable GPU!"` (main.cpp line 451, the spec's
`NoSuitableDevice`). -/
inductive SelectError
  | noGpuFound
  | noSuitableDevice
deriving DecidableEq, Repr

/-- `std::multimap<uint32_t, VkPhysicalDevice>::insert` (main.cpp line 440):
the map keeps entries sorted by key ascending and, per the C++ standard,
inserts an entry with an already-present key at the upper bound of the range
of equal keys, i.e. after every entry with a key `≤` the new key. -/
def multimapInsert (l : List (Nat × PhysicalDevice)) (p : Nat × PhysicalDevice) :
    List (Nat × PhysicalDevice) :=
  match l with
  | [] => [p]
  | q :: rest => if p.1 < q.1 then p :: q :: rest else q :: multimapInsert rest p

/-- `pick_physical_device` (main.cpp lines 397-455): fail if no device is
enumerated; otherwise insert every `(rate_device_suitability(d), d)` pair into
the multimap and read `candidates.rbegin()` — the last entry of the ascending
order — accepting it only when its score is positive. -/
def pick_physical_device (devices : List PhysicalDevice) :
    Except SelectError PhysicalDevice :=
  if devices.isEmpty then Except.error SelectError.noGpuFound
  else
    match (devices.foldl (fun acc d => multimapInsert acc (rate_device_suitability d, d)) []).getLast? with
    | some c => if c.1 > 0 then Except.ok c.2 else Except.error SelectError.noSuitableDevice
    | none => Except.error SelectError.noSuitableDevice

/-! ## Characterization of the multimap-based selection

`candidates.rbegin()` is the last entry of the key-ascending multimap.  We
show that building the multimap by repeated insertion and reading its last
entry computes a running "best" that, on equal keys, prefers the later
insertion (the multimap inserts equal keys at the upper bound of their range).
-/

/-- The running best of the fold: keep the old entry only when its key is
strictly greater than the new one (equal keys go to the newcomer, which sits
later in the multimap's ascending order). -/
def bestOf (b : Option (Nat × PhysicalDevice)) (p : Nat × PhysicalDevice) :
    Nat × PhysicalDevice :=
  match b with
  | none => p
  | some q => if p.1 < q.1 then q else p

/-- Fold `bestOf` over the scored devices, mirroring the insertion loop of
`pick_physical_device`. -/
def runBest (b : Option (Nat × PhysicalDevice)) (devices : List PhysicalDevice) :
    Option (Nat × PhysicalDevice) :=
  devices.foldl (fun b d => some (bestOf b (rate_device_suitability d, d))) b

theorem mem_multimapInsert {l : List (Nat × PhysicalDevice)} {p x : Nat × PhysicalDevice}
    (hx : x ∈ multimapInsert l p) : x ∈ l ∨ x = p := by
  induction l with
  | nil =>
    simp only [multimapInsert, List.mem_singleton] at hx
    exact Or.inr hx
  | cons q rest ih =>
    simp only [multimapInsert] at hx
    by_cases hlt : p.1 < q.1
    · simp only [if_pos hlt, List.mem_cons] at hx
      rcases hx with h | h | h
      · exact Or.inr h
      · exact Or.inl (by simp [h])
      · exact Or.inl (by simp [h])
    · simp only [if_neg hlt, List.mem_cons] at hx
      rcases hx with h | h
      · exact Or.inl (by simp [h])
      · rcases ih h with h' | h'
        · exact Or.inl (List.mem_cons_of_mem _ h')
        · exact Or.inr h'

theorem multimapInsert_pairwise {l : List (Nat × PhysicalDevice)} {p : Nat × PhysicalDevice}
    (hl : l.Pairwise (fun a b => a.1 ≤ b.1)) :
    (multimapInsert l p).Pairwise (fun a b => a.1 ≤ b.1) := by
  induction l with
  | nil => simp [multimapInsert]
  | cons q rest ih =>
    rw [List.pairwise_cons] at hl
    obtain ⟨hq, hrest⟩ := hl
    simp only [multimapInsert]
    by_cases hlt : p.1 < q.1
    · rw [if_pos hlt, List.pairwise_cons]
      refine ⟨?_, List.pairwise_cons.mpr ⟨hq, hrest⟩⟩
      intro x hx
      rcases List.mem_cons.mp hx with h | h
      · exact h ▸ Nat.le_of_lt hlt
      · exact Nat.le_trans (Nat.le_of_lt hlt) (hq x h)
    · rw [if_neg hlt, List.pairwise_cons]
      refine ⟨?_, ih hrest⟩
      intro x hx
      rcases mem_multimapInsert hx with h | h
      · exact hq x h
      · exact h ▸ Nat.le_of_not_lt hlt

theorem multimapInsert_ne_nil (l : List (Nat × PhysicalDevice)) (p : Nat × PhysicalDevice) :
    multimapInsert l p ≠ [] := by
  cases l with
  | nil => simp [multimapInsert]
  | cons q rest =>
    simp only [multimapInsert]
    by_cases hlt : p.1 < q.1
    · simp [if_pos hlt]
    · simp [if_neg hlt]

theorem getLast?_multimapInsert {l : List (Nat × PhysicalDevice)} {p : Nat × PhysicalDevice}
    (hl : l.Pairwise (fun a b => a.1 ≤ b.1)) :
    (multimapInsert l p).getLast? = some (bestOf l.getLast? p) := by
  induction l with
  | nil => simp [multimapInsert, bestOf]
  | cons q rest ih =>
    rw [List.pairwise_cons] at hl
    obtain ⟨hq, hrest⟩ := hl
    simp only [multimapInsert]
    by_cases hlt : p.1 < q.1
    · rw [if_pos hlt]
      cases rest with
      | nil => simp [List.getLast?_cons_cons, bestOf, hlt]
      | cons r rest' =>
        have hne : (r :: rest' : List (Nat × PhysicalDevice)) ≠ [] := by simp
        have hlast : (r :: rest').getLast? = some ((r :: rest').getLast hne) :=
          List.getLast?_eq_getLast _ hne
        have hkey : q.1 ≤ ((r :: rest').getLast hne).1 := hq _ (List.getLast_mem hne)
        have hplt : p.1 < ((r :: rest').getLast hne).1 := Nat.lt_of_lt_of_le hlt hkey
        rw [List.getLast?_cons_cons, List.getLast?_cons_cons, hlast]
        simp [bestOf, hplt]
    · rw [if_neg hlt]
      cases rest with
      | nil => simp [multimapInsert, bestOf, hlt]
      | cons r rest' =>
        obtain ⟨y, ys, hcons⟩ : ∃ y ys, multimapInsert (r :: rest') p = y :: ys := by
          cases h : multimapInsert (r :: rest') p with
          | nil => exact absurd h (multimapInsert_ne_nil _ _)
          | cons y ys => exact ⟨y, ys, rfl⟩
        calc (q :: multimapInsert (r :: rest') p).getLast?
            = (multimapInsert (r :: rest') p).getLast? := by
              rw [hcons, List.getLast?_cons_cons]
          _ = some (bestOf (r :: rest').getLast? p) := ih hrest
          _ = some (bestOf ((q :: r :: rest').getLast?) p) := by
              rw [List.getLast?_cons_cons]


/-- Reading the last entry of the fully built multimap computes the
`bestOf` fold over the candidates. -/
theorem foldl_multimapInsert_getLast? (devices : List PhysicalDevice) :
    ∀ acc : List (Nat × PhysicalDevice), acc.Pairwise (fun a b => a.1 ≤ b.1) →
      (devices.foldl (fun a d => multimapInsert a (rate_device_suitability d, d)) acc).getLast?
        = runBest acc.getLast? devices := by
  induction devices with
  | nil => intro acc _; rfl
  | cons d rest ih =>
    intro acc hacc
    have hins : (multimapInsert acc (rate_device_suitability d, d)).Pairwise
        (fun a b => a.1 ≤ b.1) := multimapInsert_pairwise hacc
    have := ih (multimapInsert acc (rate_device_suitability d, d)) hins
    simp only [List.foldl_cons, runBest, this, getLast?_multimapInsert hacc]

/-- `bestOf` returns an entry whose key dominates both arguments. -/
theorem bestOf_key_le (b : Option (Nat × PhysicalDevice)) (p : Nat × PhysicalDevice) :
    p.1 ≤ (bestOf b p).1 ∧ ∀ q, b = some q → q.1 ≤ (bestOf b p).1 := by
  cases b with
  | none => exact ⟨Nat.le_refl _, by intro q h; cases h⟩
  | some q =>
    by_cases hlt : p.1 < q.1
    · refine ⟨?_, ?_⟩
      · simp only [bestOf, if_pos hlt]; omega
      · intro q' hq'
        cases hq'
        simp [bestOf, hlt]
    · refine ⟨?_, ?_⟩
      · simp [bestOf, hlt]
      · intro q' hq'
        cases hq'
        simp only [bestOf, if_neg hlt]; omega

/-- The fold yields the *last* maximizer: the returned device splits the list
so that everything before it scores no more, everything after it scores
strictly less, and any seed entry is dominated. -/
theorem runBest_last_argmax :
    ∀ (devices : List PhysicalDevice) (b : Option (Nat × PhysicalDevice))
      (s : Nat) (d : PhysicalDevice), runBest b devices = some (s, d) →
      (b = some (s, d) ∧ ∀ x ∈ devices, rate_device_suitability x < s)
      ∨ ∃ l₁ l₂, devices = l₁ ++ d :: l₂ ∧ s = rate_device_suitability d ∧
          (∀ x ∈ l₁, rate_device_suitability x ≤ s) ∧
          (∀ q, b = some q → q.1 ≤ s) ∧
          (∀ x ∈ l₂, rate_device_suitability x < s) := by
  intro devices
  induction devices with
  | nil =>
    intro b s d h
    exact Or.inl ⟨h, by intro x hx; cases hx⟩
  | cons d₀ rest ih =>
    intro b s d h
    have hstep : runBest b (d₀ :: rest)
        = runBest (some (bestOf b (rate_device_suitability d₀, d₀))) rest := rfl
    rw [hstep] at h
    rcases ih _ s d h with ⟨hb, hall⟩ | ⟨l₁, l₂, hsplit, hs, h₁, hb, h₂⟩
    · have hb' : bestOf b (rate_device_suitability d₀, d₀) = (s, d) := by
        injection hb
      cases b with
      | none =>
        have heq : (rate_device_suitability d₀, d₀) = (s, d) := hb'
        have hs : s = rate_device_suitability d₀ := by
          have := congrArg Prod.fst heq; simpa using this.symm
        have hd : d₀ = d := by
          have := congrArg Prod.snd heq; simpa using this
        refine Or.inr ⟨[], rest, by simp [hd], by rw [← hd]; exact hs, by simp, ?_, hall⟩
        intro q hq; cases hq
      | some q =>
        by_cases hlt : rate_device_suitability d₀ < q.1
        · have hq : q = (s, d) := by simpa [bestOf, hlt] using hb'
          refine Or.inl ⟨by rw [hq], ?_⟩
          intro x hx
          rcases List.mem_cons.mp hx with hx | hx
          · subst hx
            have : q.1 = s := by rw [hq]
            omega
          · exact hall x hx
        · have hqd : (rate_device_suitability d₀, d₀) = (s, d) := by
            simpa [bestOf, hlt] using hb'
          have hs : s = rate_device_suitability d₀ := by
            have := congrArg Prod.fst hqd; simpa using this.symm
          have hd : d₀ = d := by
            have := congrArg Prod.snd hqd; simpa using this
          refine Or.inr ⟨[], rest, by simp [hd], by rw [← hd]; exact hs, by simp, ?_, hall⟩
          intro q' hq'
          cases hq'
          have : q.1 ≤ rate_device_suitability d₀ := Nat.le_of_not_lt hlt
          omega
    · refine Or.inr ⟨d₀ :: l₁, l₂, by simp [hsplit], hs, ?_, ?_, h₂⟩
      · intro x hx
        rcases List.mem_cons.mp hx with hx | hx
        · subst hx
          have hkey := (bestOf_key_le b (rate_device_suitability x, x)).1
          have := hb _ rfl
          omega
        · exact h₁ x hx
      · intro q hq
        have hkey := (bestOf_key_le b (rate_device_suitability d₀, d₀)).2 q hq
        have := hb _ rfl
        omega

/-- `runBest` with a `some` seed never returns `none`. -/
theorem runBest_some_ne_none (devices : List PhysicalDevice) :
    ∀ q, runBest (some q) devices ≠ none := by
  induction devices with
  | nil => intro q h; cases h
  | cons d rest ih => intro q h; exact ih _ h


/-- Characterization of a successful pick: the returned device is a member of
the candidate list with positive score, no earlier candidate scores more and
every later candidate scores strictly less (the multimap's `rbegin` is the
last entry among equal maximal keys). -/
theorem pick_physical_device_ok_spec (devices : List PhysicalDevice) (d : PhysicalDevice)
    (h : pick_physical_device devices = Except.ok d) :
    ∃ l₁ l₂, devices = l₁ ++ d :: l₂ ∧ 0 < rate_device_suitability d ∧
      (∀ x ∈ l₁, rate_device_suitability x ≤ rate_device_suitability d) ∧
      (∀ x ∈ l₂, rate_device_suitability x < rate_device_suitability d) := by
  cases devices with
  | nil => simp [pick_physical_device] at h
  | cons d₀ rest =>
    have hbridge := foldl_multimapInsert_getLast? (d₀ :: rest) [] (by simp)
    rw [pick_physical_device, if_neg (by simp), hbridge] at h
    cases hrb : runBest (List.getLast? []) (d₀ :: rest) with
    | none => rw [hrb] at h; cases h
    | some c =>
      obtain ⟨s, d'⟩ := c
      rw [hrb] at h
      replace h : (if s > 0 then (Except.ok d' : Except SelectError PhysicalDevice)
          else Except.error SelectError.noSuitableDevice) = Except.ok d := h
      by_cases hs : s > 0
      · rw [if_pos hs] at h
        have hd' : d' = d := by injection h
        subst hd'
        rcases runBest_last_argmax (d₀ :: rest) _ s d' hrb with ⟨hb, _⟩ | hsplit
        · cases hb
        · obtain ⟨l₁, l₂, hdev, hrate, h₁, _, h₂⟩ := hsplit
          exact ⟨l₁, l₂, hdev, hrate ▸ hs, fun x hx => hrate ▸ h₁ x hx,
            fun x hx => hrate ▸ h₂ x hx⟩
      · rw [if_neg hs] at h
        cases h

/-- If some candidate has a positive score, the pick succeeds and the chosen
device's score dominates every candidate's score. -/
theorem pick_physical_device_ok_of_pos (devices : List PhysicalDevice)
    (d₀ : PhysicalDevice) (hmem : d₀ ∈ devices) (hpos : 0 < rate_device_suitability d₀) :
    ∃ d, pick_physical_device devices = Except.ok d ∧ d ∈ devices ∧
      ∀ x ∈ devices, rate_device_suitability x ≤ rate_device_suitability d := by
  cases devices with
  | nil => cases hmem
  | cons dh rest =>
    have hbridge := foldl_multimapInsert_getLast? (dh :: rest) [] (by simp)
    cases hrb : runBest (List.getLast? []) (dh :: rest) with
    | none =>
      have hcontra : runBest (some (rate_device_suitability dh, dh)) rest = none := hrb
      exact absurd hcontra (runBest_some_ne_none rest _)
    | some c =>
      obtain ⟨s, d⟩ := c
      rcases runBest_last_argmax (dh :: rest) _ s d hrb with ⟨hb, _⟩ | hsplit
      · cases hb
      · obtain ⟨l₁, l₂, hdev, hrate, h₁, _, h₂⟩ := hsplit
        have hmemd : d ∈ dh :: rest := by rw [hdev]; exact List.mem_append_right _ (List.mem_cons_self _ _)
        have hall : ∀ x ∈ dh :: rest, rate_device_suitability x ≤ s := by
          intro x hx
          rw [hdev] at hx
          rcases List.mem_append.mp hx with hx | hx
          · exact h₁ x hx
          · rcases List.mem_cons.mp hx with hx | hx
            · rw [hx, ← hrate]
            · exact Nat.le_of_lt (h₂ x hx)
        have hspos : 0 < s := Nat.lt_of_lt_of_le hpos (hall d₀ hmem)
        refine ⟨d, ?_, hmemd, fun x hx => hrate ▸ hall x hx⟩
        rw [pick_physical_device, if_neg (by simp), hbridge, hrb]
        show (if s > 0 then (Except.ok d : Except SelectError PhysicalDevice)
          else Except.error SelectError.noSuitableDevice) = Except.ok d
        rw [if_pos hspos]

/-- With a nonempty candidate list whose scores are all zero, the pick fails
with the `NoSuitableDevice` error (`"Failed to find a suitable GPU!"`). -/
theorem pick_physical_device_all_zero (devices : List PhysicalDevice)
    (hne : devices ≠ []) (hz : ∀ x ∈ devices, rate_device_suitability x = 0) :
    pick_physical_device devices = Except.error SelectError.noSuitableDevice := by
  cases devices with
  | nil => exact absurd rfl hne
  | cons dh rest =>
    have hbridge := foldl_multimapInsert_getLast? (dh :: rest) [] (by simp)
    cases hrb : runBest (List.getLast? []) (dh :: rest) with
    | none =>
      have hcontra : runBest (some (rate_device_suitability dh, dh)) rest = none := hrb
      exact absurd hcontra (runBest_some_ne_none rest _)
    | some c =>
      obtain ⟨s, d⟩ := c
      rcases runBest_last_argmax (dh :: rest) _ s d hrb with ⟨hb, _⟩ | hsplit
      · cases hb
      · obtain ⟨l₁, l₂, hdev, hrate, _, _, _⟩ := hsplit
        have hmemd : d ∈ dh :: rest := by rw [hdev]; exact List.mem_append_right _ (List.mem_cons_self _ _)
        have hs0 : s = 0 := by rw [hrate]; exact hz d hmemd
        rw [pick_physical_device, if_neg (by simp), hbridge, hrb]
        show (if s > 0 then (Except.ok d : Except SelectError PhysicalDevice)
          else Except.error SelectError.noSuitableDevice) = Except.error SelectError.noSuitableDevice
        rw [hs0]
        simp


/-- Score of an eligible device: the uint32 sum of the discrete-GPU bonus and
the maximum 2D image dimension. -/
theorem rate_eq_of_eligible (d : PhysicalDevice) (h : eligible d = true) :
    rate_device_suitability d
      = ((if d.deviceType = DeviceType.discreteGpu then 1000 else 0)
          + d.maxImageDimension2D) % U32 := by
  rw [eligible, Bool.and_eq_true] at h
  simp [rate_device_suitability, h.1, h.2]

/-- A non-discrete device never scores more than its maximum image dimension. -/
theorem rate_le_dim_of_not_discrete (d : PhysicalDevice)
    (hnd : d.deviceType ≠ DeviceType.discreteGpu)
    (hlt : d.maxImageDimension2D < U32) :
    rate_device_suitability d ≤ d.maxImageDimension2D := by
  by_cases hg : d.geometryShader = true
  · by_cases hsui : is_device_suitable d = true
    · simp [rate_device_suitability, hg, hsui, hnd, Nat.mod_eq_of_lt hlt]
    · simp [rate_device_suitability, hg, hsui]
  · simp [rate_device_suitability, hg]

/-- Fully featured eligible test device used in concrete evaluations: one
queue family that is both graphics- and present-capable, the swapchain
extension available, one surface format and one present mode. -/
def mkEligible (t : DeviceType) (dim fmt : Nat) : PhysicalDevice :=
  { geometryShader := true, deviceType := t, maxImageDimension2D := dim,
    queueFamilies := [⟨true, true⟩], availableExtensions := ["VK_KHR_swapchain"],
    formats := [⟨fmt, 0⟩], presentModes := [2] }

/-- Eligible discrete GPU reporting the minimum possible 2D image dimension. -/
def devDiscreteDim0 : PhysicalDevice := mkEligible DeviceType.discreteGpu 0 0

/-- Eligible integrated GPU reporting a 2D image dimension of 2000. -/
def devIntegratedDim2000 : PhysicalDevice := mkEligible DeviceType.integratedGpu 2000 0

/-- First of two identically scored eligible integrated GPUs. -/
def devTieFirst : PhysicalDevice := mkEligible DeviceType.integratedGpu 7 1

/-- Second of two identically scored eligible integrated GPUs. -/
def devTieSecond : PhysicalDevice := mkEligible DeviceType.integratedGpu 7 2

/-- Device with no geometry-shader support; `rate_device_suitability` scores it 0. -/
def devNoGeometry : PhysicalDevice :=
  { mkEligible DeviceType.discreteGpu 5 0 with geometryShader := false }

/-- Eligible discrete GPU with dimension 800, for the witness of claim C1. -/
def devDiscreteDim800 : PhysicalDevice := mkEligible DeviceType.discreteGpu 800 0

/-- Eligible integrated GPU with dimension 500, for the witness of claim C1. -/
def devIntegratedDim500 : PhysicalDevice := mkEligible DeviceType.integratedGpu 500 0

/-- Claim C1, counterexample: a candidate list with an eligible discrete GPU
(dimension 0) and an eligible integrated GPU (dimension 2000) makes the
selector return the integrated GPU — the +1000 discrete bonus does not
dominate `maxImageDimension2D`, so the claim's "regardless of the devices'
maxImageDimension2D values" is false. -/
theorem claim1_counterexample :
    eligible devDiscreteDim0 = true
    ∧ devDiscreteDim0.deviceType = DeviceType.discreteGpu
    ∧ eligible devIntegratedDim2000 = true
    ∧ devIntegratedDim2000.deviceType = DeviceType.integratedGpu
    ∧ pick_physical_device [devDiscreteDim0, devIntegratedDim2000]
        = Except.ok devIntegratedDim2000
    ∧ devIntegratedDim2000.deviceType ≠ DeviceType.discreteGpu := by
  exact ⟨rfl, rfl, rfl, rfl, rfl, by decide⟩

/-- Claim C1, amended: with an eligible discrete GPU `dd` and an eligible
integrated GPU among the candidates, the selector returns a discrete GPU
provided every non-discrete candidate's `maxImageDimension2D` stays below
`dd.maxImageDimension2D + 1000` and no score overflows uint32. -/
theorem claim1_amended (devices : List PhysicalDevice) (dd di : PhysicalDevice)
    (hdd : dd ∈ devices) (hddElig : eligible dd = true)
    (hddType : dd.deviceType = DeviceType.discreteGpu)
    (_hdi : di ∈ devices) (_hdiElig : eligible di = true)
    (_hdiType : di.deviceType = DeviceType.integratedGpu)
    (hnoOverflow : ∀ x ∈ devices, x.maxImageDimension2D + 1000 < U32)
    (hdom : ∀ x ∈ devices, x.deviceType ≠ DeviceType.discreteGpu →
      x.maxImageDimension2D < dd.maxImageDimension2D + 1000) :
    ∃ d, pick_physical_device devices = Except.ok d
      ∧ d.deviceType = DeviceType.discreteGpu := by
  have hr : rate_device_suitability dd = 1000 + dd.maxImageDimension2D := by
    rw [rate_eq_of_eligible dd hddElig, if_pos hddType]
    exact Nat.mod_eq_of_lt (by have := hnoOverflow dd hdd; omega)
  have hpos : 0 < rate_device_suitability dd := by omega
  obtain ⟨d, hpick, hdmem, hmax⟩ := pick_physical_device_ok_of_pos devices dd hdd hpos
  refine ⟨d, hpick, ?_⟩
  by_contra hnd
  have hdim : d.maxImageDimension2D < U32 := by have := hnoOverflow d hdmem; omega
  have h1 : rate_device_suitability d ≤ d.maxImageDimension2D :=
    rate_le_dim_of_not_discrete d hnd hdim
  have h2 : d.maxImageDimension2D < dd.maxImageDimension2D + 1000 := hdom d hdmem hnd
  have h3 : rate_device_suitability dd ≤ rate_device_suitability d := hmax dd hdd
  omega

/-- Claim C1, witness: the amended theorem applied to a discrete GPU of
dimension 800 and an integrated GPU of dimension 500. -/
theorem claim1_amended_witness :
    ∃ d, pick_physical_device [devDiscreteDim800, devIntegratedDim500]
      = Except.ok d ∧ d.deviceType = DeviceType.discreteGpu :=
  claim1_amended [devDiscreteDim800, devIntegratedDim500]
    devDiscreteDim800 devIntegratedDim500
    (by decide) (by decide) (by decide) (by decide) (by decide) (by decide)
    (by decide) (by decide)

/-- Claim C2, counterexample: two distinct eligible devices with equal
(maximal) scores; the selector returns the SECOND of them in enumeration
order, not the first, because the multimap inserts equal keys at the upper
bound of their range and `rbegin` reads the last entry. -/
theorem claim2_counterexample :
    rate_device_suitability devTieFirst = rate_device_suitability devTieSecond
    ∧ devTieFirst ≠ devTieSecond
    ∧ pick_physical_device [devTieFirst, devTieSecond] = Except.ok devTieSecond
    ∧ pick_physical_device [devTieFirst, devTieSecond] ≠ Except.ok devTieFirst := by
  refine ⟨rfl, by decide, rfl, ?_⟩
  intro hcon
  have h2 : (Except.ok devTieSecond : Except SelectError PhysicalDevice)
      = Except.ok devTieFirst := hcon
  have h3 : devTieSecond = devTieFirst := by injection h2
  exact absurd h3 (by decide)

/-- Claim C2, amended: the selected device attains the maximum score and is
the LAST such candidate in enumeration order — everything before it scores no
more, everything after it scores strictly less. -/
theorem claim2_amended (devices : List PhysicalDevice) (d : PhysicalDevice)
    (h : pick_physical_device devices = Except.ok d) :
    ∃ l₁ l₂, devices = l₁ ++ d :: l₂ ∧ 0 < rate_device_suitability d ∧
      (∀ x ∈ l₁, rate_device_suitability x ≤ rate_device_suitability d) ∧
      (∀ x ∈ l₂, rate_device_suitability x < rate_device_suitability d) :=
  pick_physical_device_ok_spec devices d h

/-- Claim C2, witness: the amended theorem applied to the tied pair. -/
theorem claim2_amended_witness :
    ∃ l₁ l₂, [devTieFirst, devTieSecond] = l₁ ++ devTieSecond :: l₂ ∧
      0 < rate_device_suitability devTieSecond ∧
      (∀ x ∈ l₁, rate_device_suitability x ≤ rate_device_suitability devTieSecond) ∧
      (∀ x ∈ l₂, rate_device_suitability x < rate_device_suitability devTieSecond) :=
  claim2_amended [devTieFirst, devTieSecond] devTieSecond rfl

/-- Claim C3, counterexample: the empty candidate list has (vacuously) no
eligible device, yet selection fails with the distinct no-GPUs-found error
("Failed to find GPUs with Vulkan support!"), not `NoSuitableDevice`. -/
theorem claim3_counterexample :
    (∀ x ∈ ([] : List PhysicalDevice), rate_device_suitability x = 0)
    ∧ pick_physical_device [] = Except.error SelectError.noGpuFound
    ∧ SelectError.noGpuFound ≠ SelectError.noSuitableDevice := by
  refine ⟨?_, rfl, by decide⟩
  intro x hx
  cases hx

/-- Claim C3, amended: for every NONEMPTY candidate list whose devices all
score 0, selection fails with `NoSuitableDevice`
("Failed to find a suitable GPU!"). -/
theorem claim3_amended (devices : List PhysicalDevice) (hne : devices ≠ [])
    (hz : ∀ x ∈ devices, rate_device_suitability x = 0) :
    pick_physical_device devices = Except.error SelectError.noSuitableDevice :=
  pick_physical_device_all_zero devices hne hz

/-- Claim C3, witness: a single geometry-shader-less device scores 0 and the
selection fails with `NoSuitableDevice`. -/
theorem claim3_amended_witness :
    pick_physical_device [devNoGeometry] = Except.error SelectError.noSuitableDevice :=
  claim3_amended [devNoGeometry] (by decide) (by decide)


/-! ## Swapchain negotiation (`choose_swap_extent`, `create_swap_chain`) -/

/-- `VkExtent2D`: a pair of `uint32_t` sizes. -/
structure Extent2D where
  width : Nat
  height : Nat
deriving DecidableEq, Repr

/-- `VkSurfaceCapabilitiesKHR`, restricted to the fields the negotiator reads
(min/max image count and the three extents). -/
structure SurfaceCapabilities where
  minImageCount : Nat
  maxImageCount : Nat
  currentExtent : Extent2D
  minImageExtent : Extent2D
  maxImageExtent : Extent2D
deriving DecidableEq, Repr

/-- `choose_swap_extent` (main.cpp lines 719-734): if `currentExtent.width`
differs from `UINT32_MAX`, return `currentExtent` verbatim; otherwise clamp
the requested `WIDTH`/`HEIGHT` default into the device-reported extent bounds
per axis (`max(min, min(max, requested))`). -/
def choose_swap_extent (c : SurfaceCapabilities) : Extent2D :=
  if c.currentExtent.width ≠ UINT32_MAX then c.currentExtent
  else
    { width := max c.minImageExtent.width (min c.maxImageExtent.width WIDTH),
      height := max c.minImageExtent.height (min c.maxImageExtent.height HEIGHT) }

/-- Image-count negotiation of `create_swap_chain` (main.cpp lines 772-776):
`image_count = minImageCount + 1` (uint32 addition), clamped down to
`maxImageCount` when that bound is nonzero and exceeded. -/
def negotiated_image_count (c : SurfaceCapabilities) : Nat :=
  let image_count := (c.minImageCount + 1) % U32
  if c.maxImageCount > 0 ∧ image_count > c.maxImageCount then c.maxImageCount
  else image_count

/-- Surface-capability snapshot whose non-sentinel `currentExtent` (5, 5)
lies outside `[minImageExtent, maxImageExtent] = [(10,10), (20,20)]`. -/
def capsCurrentOutOfBounds : SurfaceCapabilities :=
  { minImageCount := 2, maxImageCount := 3,
    currentExtent := ⟨5, 5⟩, minImageExtent := ⟨10, 10⟩, maxImageExtent := ⟨20, 20⟩ }

/-- Surface-capability snapshot with the sentinel current extent, used as the
witness input for claim C4. -/
def capsSentinel : SurfaceCapabilities :=
  { minImageCount := 2, maxImageCount := 3,
    currentExtent := ⟨UINT32_MAX, 0⟩, minImageExtent := ⟨1, 1⟩, maxImageExtent := ⟨4096, 4096⟩ }

/-- Surface-capability snapshot with `maxImageCount < minImageCount`
(degenerate, but expressible in the data model). -/
def capsMaxBelowMin : SurfaceCapabilities :=
  { minImageCount := 5, maxImageCount := 2,
    currentExtent := ⟨800, 600⟩, minImageExtent := ⟨1, 1⟩, maxImageExtent := ⟨4096, 4096⟩ }

/-- Well-formed snapshot with `minImageCount = 2`, `maxImageCount = 2`
(spec §8 scenario: request of 3 clamped down to 2), used as the witness input
for claim C5. -/
def capsMinMax2 : SurfaceCapabilities :=
  { minImageCount := 2, maxImageCount := 2,
    currentExtent := ⟨800, 600⟩, minImageExtent := ⟨1, 1⟩, maxImageExtent := ⟨4096, 4096⟩ }

/-- Claim C4, counterexample: when the surface reports a non-sentinel current
extent lying outside `[minImageExtent, maxImageExtent]`, `choose_swap_extent`
returns it verbatim, so the negotiated extent violates the claimed bounds. -/
theorem claim4_counterexample :
    choose_swap_extent capsCurrentOutOfBounds = { width := 5, height := 5 }
    ∧ (choose_swap_extent capsCurrentOutOfBounds).width
        < capsCurrentOutOfBounds.minImageExtent.width := by
  exact ⟨rfl, by decide⟩

/-- Claim C4, amended: for surface-capability snapshots that are well formed
in the Vulkan sense — `minImageExtent ≤ maxImageExtent` componentwise and a
non-sentinel `currentExtent` already inside those bounds — the negotiated
extent lies within `[minImageExtent, maxImageExtent]` componentwise. -/
theorem claim4_amended (c : SurfaceCapabilities)
    (hwf_w : c.minImageExtent.width ≤ c.maxImageExtent.width)
    (hwf_h : c.minImageExtent.height ≤ c.maxImageExtent.height)
    (hcur : c.currentExtent.width ≠ UINT32_MAX →
      (c.minImageExtent.width ≤ c.currentExtent.width
        ∧ c.currentExtent.width ≤ c.maxImageExtent.width
        ∧ c.minImageExtent.height ≤ c.currentExtent.height
        ∧ c.currentExtent.height ≤ c.maxImageExtent.height)) :
    c.minImageExtent.width ≤ (choose_swap_extent c).width
    ∧ (choose_swap_extent c).width ≤ c.maxImageExtent.width
    ∧ c.minImageExtent.height ≤ (choose_swap_extent c).height
    ∧ (choose_swap_extent c).height ≤ c.maxImageExtent.height := by
  rw [choose_swap_extent]
  by_cases hs : c.currentExtent.width ≠ UINT32_MAX
  · rw [if_pos hs]
    exact hcur hs
  · rw [if_neg hs]
    refine ⟨Nat.le_max_left _ _, ?_, Nat.le_max_left _ _, ?_⟩
    · exact Nat.max_le.mpr ⟨hwf_w, Nat.min_le_left _ _⟩
    · exact Nat.max_le.mpr ⟨hwf_h, Nat.min_le_left _ _⟩

/-- Claim C4, witness: the amended theorem applied to the sentinel snapshot,
whose bounds contain the clamped (800, 600) default. -/
theorem claim4_amended_witness :
    capsSentinel.minImageExtent.width ≤ (choose_swap_extent capsSentinel).width
    ∧ (choose_swap_extent capsSentinel).width ≤ capsSentinel.maxImageExtent.width
    ∧ capsSentinel.minImageExtent.height ≤ (choose_swap_extent capsSentinel).height
    ∧ (choose_swap_extent capsSentinel).height ≤ capsSentinel.maxImageExtent.height :=
  claim4_amended capsSentinel (by decide) (by decide) (fun h => absurd rfl h)

/-- Claim C5, counterexample: with `minImageCount = 5` and `maxImageCount = 2`
the negotiated count is clamped to 2, which is below `minImageCount`, so the
claimed "always at least minImageCount" fails on this snapshot. -/
theorem claim5_counterexample :
    capsMaxBelowMin.maxImageCount > 0
    ∧ negotiated_image_count capsMaxBelowMin = 2
    ∧ negotiated_image_count capsMaxBelowMin < capsMaxBelowMin.minImageCount := by
  exact ⟨by decide, rfl, by decide⟩

/-- Claim C5, amended: the negotiated count is `minImageCount + 1` except
when a nonzero `maxImageCount` is exceeded, in which case it is clamped to
`maxImageCount`; and for snapshots that are well formed in the Vulkan sense
(`minImageCount ≤ maxImageCount` whenever `maxImageCount > 0`, and
`minImageCount + 1` not overflowing uint32) a nonzero `maxImageCount` bounds
the count from above while `minImageCount` bounds it from below. -/
theorem claim5_amended (c : SurfaceCapabilities)
    (hnof : c.minImageCount + 1 < U32) :
    ((c.maxImageCount = 0 ∨ c.minImageCount + 1 ≤ c.maxImageCount) →
      negotiated_image_count c = c.minImageCount + 1)
    ∧ (c.maxImageCount > 0 → c.minImageCount + 1 > c.maxImageCount →
      negotiated_image_count c = c.maxImageCount)
    ∧ (c.maxImageCount > 0 → c.minImageCount ≤ c.maxImageCount →
      (c.minImageCount ≤ negotiated_image_count c
        ∧ negotiated_image_count c ≤ c.maxImageCount)) := by
  have hmod : (c.minImageCount + 1) % U32 = c.minImageCount + 1 := Nat.mod_eq_of_lt hnof
  rw [negotiated_image_count]
  simp only [hmod]
  refine ⟨?_, ?_, ?_⟩
  · intro h
    rcases h with h | h
    · rw [if_neg]; omega
    · rw [if_neg]; omega
  · intro h1 h2
    rw [if_pos ⟨h1, h2⟩]
  · intro h1 h2
    by_cases hgt : c.minImageCount + 1 > c.maxImageCount
    · rw [if_pos ⟨h1, hgt⟩]; omega
    · rw [if_neg (by omega)]; omega

/-- Claim C5, witness: the spec §8 scenario `minImageCount = maxImageCount = 2`;
the request of 3 is clamped down to 2, within the claimed bounds. -/
theorem claim5_amended_witness :
    ((capsMinMax2.maxImageCount = 0 ∨ capsMinMax2.minImageCount + 1 ≤ capsMinMax2.maxImageCount) →
      negotiated_image_count capsMinMax2 = capsMinMax2.minImageCount + 1)
    ∧ (capsMinMax2.maxImageCount > 0 → capsMinMax2.minImageCount + 1 > capsMinMax2.maxImageCount →
      negotiated_image_count capsMinMax2 = capsMinMax2.maxImageCount)
    ∧ (capsMinMax2.maxImageCount > 0 → capsMinMax2.minImageCount ≤ capsMinMax2.maxImageCount →
      (capsMinMax2.minImageCount ≤ negotiated_image_count capsMinMax2
        ∧ negotiated_image_count capsMinMax2 ≤ capsMinMax2.maxImageCount)) :=
  claim5_amended capsMinMax2 (by decide)


/-! ## The per-frame protocol as executed by `draw_frame` (main.cpp 1110-1162)

`draw_frame` is a straight-line sequence of driver calls.  We model one
iteration as the list of calls it performs together with its outcome, taking
the driver-reported `VkResult` of the three per-frame protocol steps
(acquire, submit, present) as oracle inputs.  The C++ code reads only the
submit result (line 1141); the results of `vkAcquireNextImageKHR`
(line 1115) and `vkQueuePresentKHR` (line 1157) are discarded, which the
model reflects by ignoring those two arguments. -/

/-- `VkResult` values relevant to the per-frame protocol. -/
inductive VkResult
  | success
  | errorOutOfDateKHR
  | errorDeviceLost
  | suboptimalKHR
  | otherFailure
deriving DecidableEq, Repr

/-- Driver calls performed by one `draw_frame` iteration, in program order
(main.cpp lines 1112, 1115, 1120, 1123, 1139, 1141, 1157, 1159, 1161). -/
inductive CpuOp
  | waitSlotFence
  | acquireNextImage
  | waitImageFence
  | markImageOwner
  | resetSlotFence
  | queueSubmit
  | queuePresent
  | queueWaitIdle
  | advanceFrame
deriving DecidableEq, Repr

/-- One `draw_frame` iteration: the calls executed and the outcome.  `busy`
states whether `images_in_flight_[image_index]` was non-null (the per-image
fence wait of lines 1118-1121 runs only then).  Only a non-success submit
result raises (`throw runtime_error`, line 1143), cutting the run short
before the present; the acquire and present results are never inspected. -/
def draw_frame_run (busy : Bool) (_acquireResult sub _presentResult : VkResult) :
    List CpuOp × Except String Unit :=
  let preSubmitOps := [CpuOp.waitSlotFence, CpuOp.acquireNextImage]
    ++ (if busy then [CpuOp.waitImageFence] else [])
    ++ [CpuOp.markImageOwner, CpuOp.resetSlotFence, CpuOp.queueSubmit]
  if sub ≠ VkResult.success then
    (preSubmitOps, Except.error "Failed to submit draw command buffer!")
  else
    (preSubmitOps ++ [CpuOp.queuePresent, CpuOp.queueWaitIdle, CpuOp.advanceFrame],
      Except.ok ())

/-- Process exit status: `main` (main.cpp 1218-1233) catches any exception
propagated out of the loop and returns `EXIT_FAILURE` (nonzero); otherwise
`EXIT_SUCCESS` (0). -/
def mainExitCode (r : Except String Unit) : Nat :=
  match r with
  | Except.ok _ => 0
  | Except.error _ => 1

/-- Results that report device loss or an out-of-date surface. -/
def fatalStepResult (r : VkResult) : Bool :=
  r == VkResult.errorOutOfDateKHR || r == VkResult.errorDeviceLost

/-- Calls that can suspend the CPU control thread until GPU progress:
`vkWaitForFences` (with `UINT64_MAX` timeout) and `vkQueueWaitIdle`.
`vkQueueSubmit` and `vkQueuePresentKHR` return without waiting for the
submitted work.  (The acquire call happens at, not after, acquisition, so its
own potential blocking is outside the scope of the claims below.) -/
def blocksCpu : CpuOp → Bool
  | CpuOp.waitSlotFence => true
  | CpuOp.waitImageFence => true
  | CpuOp.queueWaitIdle => true
  | _ => false

/-- The two `vkWaitForFences` calls of `draw_frame`. -/
def isFenceWait : CpuOp → Bool
  | CpuOp.waitSlotFence => true
  | CpuOp.waitImageFence => true
  | _ => false

/-- Calls of a `draw_frame` iteration strictly after `vkAcquireNextImageKHR`. -/
def after_acquire (l : List CpuOp) : List CpuOp :=
  (l.dropWhile (fun o => !(o == CpuOp.acquireNextImage))).drop 1

/-- Claim C6, counterexample: with the acquire step reporting an out-of-date
surface and the present step reporting device loss (submit succeeding), the
`draw_frame` iteration completes with `ok` and the process would exit 0 —
neither failure is surfaced, because both result codes are discarded. -/
theorem claim6_counterexample :
    fatalStepResult VkResult.errorOutOfDateKHR = true
    ∧ fatalStepResult VkResult.errorDeviceLost = true
    ∧ (draw_frame_run false VkResult.errorOutOfDateKHR VkResult.success
        VkResult.errorDeviceLost).2 = Except.ok ()
    ∧ mainExitCode (draw_frame_run false VkResult.errorOutOfDateKHR VkResult.success
        VkResult.errorDeviceLost).2 = 0 := by
  exact ⟨rfl, rfl, rfl, rfl⟩

/-- Claim C6, amended: only the SUBMIT step's failure is surfaced: a
non-success `vkQueueSubmit` result raises, skips the present, and terminates
the process with nonzero status, while the iteration succeeds for every
acquire/present result whenever submit succeeds. -/
theorem claim6_amended (busy : Bool) (acq sub pre : VkResult) :
    ((draw_frame_run busy acq sub pre).2 = Except.ok () ↔ sub = VkResult.success)
    ∧ (sub ≠ VkResult.success →
        (draw_frame_run busy acq sub pre).2
          = Except.error "Failed to submit draw command buffer!"
        ∧ mainExitCode (draw_frame_run busy acq sub pre).2 ≠ 0
        ∧ CpuOp.queuePresent ∉ (draw_frame_run busy acq sub pre).1) := by
  by_cases hsub : sub = VkResult.success
  · subst hsub
    cases busy <;> simp [draw_frame_run, mainExitCode]
  · cases busy <;> simp [draw_frame_run, mainExitCode, hsub]

/-- Claim C6, witness: a device-lost submit result is surfaced as the thrown
error, the present call is skipped and the exit status is nonzero. -/
theorem claim6_amended_witness :
    (draw_frame_run false VkResult.success VkResult.errorDeviceLost VkResult.success).2
      = Except.error "Failed to submit draw command buffer!"
    ∧ mainExitCode (draw_frame_run false VkResult.success VkResult.errorDeviceLost
        VkResult.success).2 ≠ 0
    ∧ CpuOp.queuePresent ∉ (draw_frame_run false VkResult.success VkResult.errorDeviceLost
        VkResult.success).1 :=
  (claim6_amended false VkResult.success VkResult.errorDeviceLost VkResult.success).2
    (by decide)

/-- Claim C7, counterexample: after image acquisition the iteration performs
`vkQueueWaitIdle(present_queue_)` (main.cpp line 1159) — a CPU-side blocking
wait that is not one of the two fence waits — so the CPU does block on the
present submission every frame. -/
theorem claim7_counterexample :
    CpuOp.queueWaitIdle ∈ after_acquire
      (draw_frame_run false VkResult.success VkResult.success VkResult.success).1
    ∧ blocksCpu CpuOp.queueWaitIdle = true
    ∧ isFenceWait CpuOp.queueWaitIdle = false := by
  exact ⟨by decide, rfl, rfl⟩

/-- Claim C7, amended: the CPU-blocking calls after image acquisition are
exactly the per-image fence wait (when the acquired image is still claimed)
plus a `vkQueueWaitIdle` on the present queue at the end of every
successfully submitted frame — presentation is therefore synchronized by a
CPU-side wait as well, not only by semaphores. -/
theorem claim7_amended (busy : Bool) (acq sub pre : VkResult) :
    (after_acquire (draw_frame_run busy acq sub pre).1).filter blocksCpu
      = (if busy then [CpuOp.waitImageFence] else [])
        ++ (if sub = VkResult.success then [CpuOp.queueWaitIdle] else []) := by
  by_cases hsub : sub = VkResult.success <;>
    cases busy <;>
      simp [draw_frame_run, after_acquire, blocksCpu, hsub]


/-! ## The frame-synchronization protocol as a step relation

State machine distilled from `draw_frame` (main.cpp 1110-1162) and
`create_sync_objects` (main.cpp 1164-1187).  The CPU control thread runs the
phases of one `draw_frame` iteration; the GPU asynchronously completes
submitted work, signaling the corresponding slot fence.  Fences are modelled
as signaled/unsignaled booleans per slot (`Fin 2` because
`MAX_FRAMES_IN_FLIGHT = 2`); `images_in_flight_` maps an image index to the
slot whose fence currently claims it (`VK_NULL_HANDLE` = `none`).

The CPU transitions bundle consecutive straight-line driver calls between
blocking points: `acquire` = the slot-fence wait (line 1112, enabled only
when the fence is signaled) plus `vkAcquireNextImageKHR` returning an
arbitrary image index; `mark` = the per-image fence wait (lines 1118-1121,
enabled only when the recorded owner's fence is signaled) plus recording the
new owner (line 1123) and `vkResetFences` (line 1139); `submitPresent` =
`vkQueueSubmit` registering pending GPU work on the slot fence (line 1141),
present, and the frame advance (line 1161).  `gpuComplete` is the GPU's
completion of a slot's submitted work, signaling its fence.  GPU steps only
signal fences, so folding each wait with the directly following CPU write is
faithful: a fence observed signaled cannot become unsignaled before the next
CPU action. -/

/-- CPU position inside one `draw_frame` iteration. -/
inductive Phase
  | start
  | gotImage (i : Nat)
  | marked (i : Nat)
deriving DecidableEq, Repr

/-- Global state of the frame-synchronization protocol. -/
structure SyncState where
  /-- `current_frame_` (main.cpp line 140); the active slot is `currentFrame % 2`. -/
  currentFrame : Nat
  /-- `in_flight_fences_[s]` is signaled. -/
  fenceSignaled : Fin 2 → Bool
  /-- slot `s` has submitted GPU work not yet completed. -/
  pendingWork : Fin 2 → Bool
  /-- `images_in_flight_[i]`: the slot whose fence claims image `i`, if any. -/
  imagesInFlight : Nat → Option (Fin 2)
  /-- CPU position inside the current iteration. -/
  phase : Phase
  /-- number of `vkQueueSubmit` calls performed. -/
  submittedCount : Nat
  /-- number of submissions the GPU has completed. -/
  completedCount : Nat

/-- The active slot: `current_frame_ % MAX_FRAMES_IN_FLIGHT`. -/
def cur (st : SyncState) : Fin 2 := ⟨st.currentFrame % 2, Nat.mod_lt _ (by decide)⟩

/-- State after `create_sync_objects` (main.cpp 1164-1187): every per-slot
fence is created SIGNALED (`VK_FENCE_CREATE_SIGNALED_BIT`, line 1176) and
every `images_in_flight_` entry starts as `VK_NULL_HANDLE` (line 1169); no
work has been submitted and the frame counter is 0. -/
def initState : SyncState where
  currentFrame := 0
  fenceSignaled := fun _ => true
  pendingWork := fun _ => false
  imagesInFlight := fun _ => none
  phase := Phase.start
  submittedCount := 0
  completedCount := 0

/-- One transition of the protocol, parameterized by the number of swapchain
images. -/
inductive Step (numImages : Nat) : SyncState → SyncState → Prop
  /-- Slot-fence wait (line 1112) followed by `vkAcquireNextImageKHR`
  (line 1115): enabled only once the active slot's fence is signaled; the
  driver returns an arbitrary valid image index. -/
  | acquire (st : SyncState) (i : Nat) (hph : st.phase = Phase.start)
      (hfence : st.fenceSignaled (cur st) = true) (hi : i < numImages) :
      Step numImages st { st with phase := Phase.gotImage i }
  /-- Per-image fence wait (lines 1118-1121) followed by recording the new
  owner (line 1123) and `vkResetFences` (line 1139): enabled only once the
  previously recorded owner's fence (if any) is signaled. -/
  | mark (st : SyncState) (i : Nat) (hph : st.phase = Phase.gotImage i)
      (howner : ∀ s, st.imagesInFlight i = some s → st.fenceSignaled s = true) :
      Step numImages st { st with
        phase := Phase.marked i,
        imagesInFlight := Function.update st.imagesInFlight i (some (cur st)),
        fenceSignaled := Function.update st.fenceSignaled (cur st) false }
  /-- `vkQueueSubmit` with the slot fence (line 1141), present, and the
  advance of `current_frame_` (line 1161). -/
  | submitPresent (st : SyncState) (i : Nat) (hph : st.phase = Phase.marked i) :
      Step numImages st { st with
        phase := Phase.start,
        pendingWork := Function.update st.pendingWork (cur st) true,
        submittedCount := st.submittedCount + 1,
        currentFrame := st.currentFrame + 1 }
  /-- The GPU finishes a slot's submitted work and signals its fence. -/
  | gpuComplete (st : SyncState) (s : Fin 2) (hp : st.pendingWork s = true) :
      Step numImages st { st with
        fenceSignaled := Function.update st.fenceSignaled s true,
        pendingWork := Function.update st.pendingWork s false,
        completedCount := st.completedCount + 1 }

/-- States reachable from the post-`create_sync_objects` initial state. -/
inductive Reachable (numImages : Nat) : SyncState → Prop
  | init : Reachable numImages initState
  | step {st st' : SyncState} : Reachable numImages st → Step numImages st st' →
      Reachable numImages st'

/-- Number of slots with outstanding (submitted, uncompleted) GPU work. -/
def pcount (pw : Fin 2 → Bool) : Nat :=
  (if pw 0 then 1 else 0) + (if pw 1 then 1 else 0)

/-- Number of slots whose fence is unsignaled (reset and not yet signaled). -/
def ucount (fs : Fin 2 → Bool) : Nat :=
  (if fs 0 then 0 else 1) + (if fs 1 then 0 else 1)

theorem pcount_le_two (pw : Fin 2 → Bool) : pcount pw ≤ 2 := by
  cases h0 : pw 0 <;> cases h1 : pw 1 <;> simp [pcount, h0, h1]

theorem ucount_le_two (fs : Fin 2 → Bool) : ucount fs ≤ 2 := by
  cases h0 : fs 0 <;> cases h1 : fs 1 <;> simp [ucount, h0, h1]

theorem pcount_update_true (pw : Fin 2 → Bool) (c : Fin 2) (h : pw c = false) :
    pcount (Function.update pw c true) = pcount pw + 1 := by
  fin_cases c <;> simp_all [pcount, Function.update] <;> omega

theorem pcount_update_false (pw : Fin 2 → Bool) (c : Fin 2) (h : pw c = true) :
    pcount (Function.update pw c false) + 1 = pcount pw := by
  fin_cases c <;> simp_all [pcount, Function.update] <;> omega

/-- Inductive invariant of the protocol: (1) a slot with outstanding work has
an unsignaled fence; (2) submissions split into completions plus outstanding
work; (3) between reset and submit the active slot's fence is unsignaled with
no outstanding work yet; (4) after the slot-fence wait the active slot's
fence is signaled. -/
def Inv (st : SyncState) : Prop :=
  (∀ s, st.pendingWork s = true → st.fenceSignaled s = false)
  ∧ st.submittedCount = st.completedCount + pcount st.pendingWork
  ∧ (∀ i, st.phase = Phase.marked i →
      st.fenceSignaled (cur st) = false ∧ st.pendingWork (cur st) = false)
  ∧ (∀ i, st.phase = Phase.gotImage i → st.fenceSignaled (cur st) = true)

theorem inv_init : Inv initState := by
  refine ⟨?_, ?_, ?_, ?_⟩
  · intro s hs
    exact absurd hs (by simp [initState])
  · simp [initState, pcount]
  · intro i hi
    exact Phase.noConfusion hi
  · intro i hi
    exact Phase.noConfusion hi

theorem inv_step {n : Nat} {st st' : SyncState} (hinv : Inv st)
    (hstep : Step n st st') : Inv st' := by
  obtain ⟨h1, h2, h3, h4⟩ := hinv
  cases hstep with
  | acquire i hph hfence hi =>
    refine ⟨h1, h2, ?_, ?_⟩
    · intro j hj
      exact Phase.noConfusion hj
    · intro j _
      exact hfence
  | mark i hph howner =>
    have hfcur : st.fenceSignaled (cur st) = true := h4 i hph
    have hpcur : st.pendingWork (cur st) = false := by
      cases hpc : st.pendingWork (cur st) with
      | false => rfl
      | true => exact absurd (h1 _ hpc) (by simp [hfcur])
    refine ⟨?_, h2, ?_, ?_⟩
    · intro s hs
      dsimp only at hs ⊢
      by_cases hsc : s = cur st
      · subst hsc
        exact Function.update_same _ _ _
      · rw [Function.update_noteq hsc]
        exact h1 s hs
    · intro j _
      dsimp only
      constructor
      · exact Function.update_same _ _ _
      · exact hpcur
    · intro j hj
      exact Phase.noConfusion hj
  | submitPresent i hph =>
    obtain ⟨hfcur, hpcur⟩ := h3 i hph
    refine ⟨?_, ?_, ?_, ?_⟩
    · intro s hs
      dsimp only at hs ⊢
      by_cases hsc : s = cur st
      · subst hsc
        exact hfcur
      · rw [Function.update_noteq hsc] at hs
        exact h1 s hs
    · show st.submittedCount + 1
        = st.completedCount + pcount (Function.update st.pendingWork (cur st) true)
      rw [pcount_update_true st.pendingWork (cur st) hpcur]
      omega
    · intro j hj
      exact Phase.noConfusion hj
    · intro j hj
      exact Phase.noConfusion hj
  | gpuComplete s hp =>
    refine ⟨?_, ?_, ?_, ?_⟩
    · intro t ht
      dsimp only at ht ⊢
      by_cases hts : t = s
      · subst hts
        rw [Function.update_same] at ht
        cases ht
      · rw [Function.update_noteq hts] at ht
        rw [Function.update_noteq hts]
        exact h1 t ht
    · show st.submittedCount
        = st.completedCount + 1 + pcount (Function.update st.pendingWork s false)
      have := pcount_update_false st.pendingWork s hp
      omega
    · intro j hj
      replace hj : st.phase = Phase.marked j := hj
      obtain ⟨hfcur, hpcur⟩ := h3 j hj
      have hscur : cur st ≠ s := by
        intro hc
        rw [hc] at hpcur
        rw [hpcur] at hp
        cases hp
      dsimp only [cur] at hscur hfcur hpcur ⊢
      constructor
      · rw [Function.update_noteq hscur]
        exact hfcur
      · rw [Function.update_noteq hscur]
        exact hpcur
    · intro j hj
      replace hj : st.phase = Phase.gotImage j := hj
      have hfcur := h4 j hj
      dsimp only [cur] at hfcur ⊢
      by_cases hcs : (⟨st.currentFrame % 2, Nat.mod_lt _ (by decide)⟩ : Fin 2) = s
      · rw [hcs]
        exact Function.update_same _ _ _
      · rw [Function.update_noteq hcs]
        exact hfcur

theorem inv_reachable {n : Nat} {st : SyncState} (h : Reachable n st) : Inv st := by
  induction h with
  | init => exact inv_init
  | step _ hs ih => exact inv_step ih hs


/-! ## A concrete two-frame run of the protocol (one swapchain image)

Used as the concrete input of the witnesses below: frame 0 acquires, marks
and submits image 0 on slot 0; the GPU completes; frame 1 then acquires the
same image and re-marks it for slot 1 — the step allowed precisely because
slot 0's fence is signaled again. -/

/-- State after the first slot-fence wait and acquire. -/
def wAcq0 : SyncState := { initState with phase := Phase.gotImage 0 }

/-- State after frame 0 marks image 0 for slot 0 and resets slot 0's fence. -/
def wMark0 : SyncState := { wAcq0 with
  phase := Phase.marked 0,
  imagesInFlight := Function.update wAcq0.imagesInFlight 0 (some (cur wAcq0)),
  fenceSignaled := Function.update wAcq0.fenceSignaled (cur wAcq0) false }

/-- State after frame 0 submits and presents. -/
def wSub0 : SyncState := { wMark0 with
  phase := Phase.start,
  pendingWork := Function.update wMark0.pendingWork (cur wMark0) true,
  submittedCount := wMark0.submittedCount + 1,
  currentFrame := wMark0.currentFrame + 1 }

/-- State after the GPU completes frame 0's work, signaling slot 0's fence. -/
def wDone0 : SyncState := { wSub0 with
  fenceSignaled := Function.update wSub0.fenceSignaled 0 true,
  pendingWork := Function.update wSub0.pendingWork 0 false,
  completedCount := wSub0.completedCount + 1 }

/-- State after frame 1 acquires image 0 again. -/
def wAcq1 : SyncState := { wDone0 with phase := Phase.gotImage 0 }

/-- State after frame 1 re-marks image 0, now for slot 1. -/
def wMark1 : SyncState := { wAcq1 with
  phase := Phase.marked 0,
  imagesInFlight := Function.update wAcq1.imagesInFlight 0 (some (cur wAcq1)),
  fenceSignaled := Function.update wAcq1.fenceSignaled (cur wAcq1) false }

theorem step_acq0 : Step 1 initState wAcq0 :=
  Step.acquire initState 0 rfl rfl (by decide)

theorem step_mark0 : Step 1 wAcq0 wMark0 :=
  Step.mark wAcq0 0 rfl (fun s hs => nomatch hs)

theorem step_sub0 : Step 1 wMark0 wSub0 :=
  Step.submitPresent wMark0 0 rfl

theorem step_done0 : Step 1 wSub0 wDone0 :=
  Step.gpuComplete wSub0 0 (by decide)

theorem step_acq1 : Step 1 wDone0 wAcq1 :=
  Step.acquire wDone0 0 rfl (by decide) (by decide)

theorem step_mark1 : Step 1 wAcq1 wMark1 := by
  refine Step.mark wAcq1 0 rfl ?_
  intro s hs
  have hs' : some (0 : Fin 2) = some s := hs
  injection hs' with h
  subst h
  decide

theorem reach_wAcq1 : Reachable 1 wAcq1 :=
  Reachable.step (Reachable.step (Reachable.step (Reachable.step
    (Reachable.step Reachable.init step_acq0) step_mark0) step_sub0) step_done0) step_acq1

/-- Claim C8: in every reachable state of the step relation, at most
`MAX_FRAMES_IN_FLIGHT` slots have an unsignaled (reset, not yet completed)
fence, at most `MAX_FRAMES_IN_FLIGHT` slots hold outstanding submitted work,
and the number of CPU-side submissions never exceeds GPU completions by more
than `MAX_FRAMES_IN_FLIGHT`. -/
theorem claim8_bounded_frames_in_flight {numImages : Nat} {st : SyncState}
    (h : Reachable numImages st) :
    ucount st.fenceSignaled ≤ MAX_FRAMES_IN_FLIGHT
    ∧ pcount st.pendingWork ≤ MAX_FRAMES_IN_FLIGHT
    ∧ st.submittedCount ≤ st.completedCount + MAX_FRAMES_IN_FLIGHT := by
  obtain ⟨_, h2, _, _⟩ := inv_reachable h
  show ucount st.fenceSignaled ≤ 2 ∧ pcount st.pendingWork ≤ 2
    ∧ st.submittedCount ≤ st.completedCount + 2
  refine ⟨ucount_le_two _, pcount_le_two _, ?_⟩
  have := pcount_le_two st.pendingWork
  omega

/-- Claim C8, witness: the bound instantiated at the reachable state
`wAcq1` (one submission, one completion). -/
theorem claim8_bounded_frames_in_flight_witness :
    ucount wAcq1.fenceSignaled ≤ MAX_FRAMES_IN_FLIGHT
    ∧ pcount wAcq1.pendingWork ≤ MAX_FRAMES_IN_FLIGHT
    ∧ wAcq1.submittedCount ≤ wAcq1.completedCount + MAX_FRAMES_IN_FLIGHT :=
  claim8_bounded_frames_in_flight reach_wAcq1

/-- Claim C9: along any transition out of a reachable state, an image's
recorded claimant can change to a different slot only if the previous
claimant's fence was signaled — the per-image wait (main.cpp 1118-1121) runs
before the overwrite (line 1123), so two slots never claim one image while
both fences are unsignaled. -/
theorem claim9_image_claim_exclusive {numImages : Nat} {st st' : SyncState}
    (_hreach : Reachable numImages st) (hstep : Step numImages st st')
    (i : Nat) (s s' : Fin 2)
    (hold : st.imagesInFlight i = some s')
    (hnew : st'.imagesInFlight i = some s)
    (hne : s ≠ s') :
    st.fenceSignaled s' = true := by
  cases hstep with
  | acquire j hph hfence hj =>
    replace hnew : st.imagesInFlight i = some s := hnew
    rw [hold] at hnew
    injection hnew with hc
    exact absurd hc.symm hne
  | mark j hph howner =>
    replace hnew : Function.update st.imagesInFlight j (some (cur st)) i = some s := hnew
    by_cases hij : i = j
    · subst hij
      exact howner s' hold
    · rw [Function.update_noteq hij] at hnew
      rw [hold] at hnew
      injection hnew with hc
      exact absurd hc.symm hne
  | submitPresent j hph =>
    replace hnew : st.imagesInFlight i = some s := hnew
    rw [hold] at hnew
    injection hnew with hc
    exact absurd hc.symm hne
  | gpuComplete t hp =>
    replace hnew : st.imagesInFlight i = some s := hnew
    rw [hold] at hnew
    injection hnew with hc
    exact absurd hc.symm hne

/-- Claim C9, witness: frame 1's re-mark of image 0 (transition `wAcq1` to
`wMark1`, slot 1 replacing slot 0) finds slot 0's fence signaled. -/
theorem claim9_image_claim_exclusive_witness :
    wAcq1.fenceSignaled 0 = true :=
  claim9_image_claim_exclusive reach_wAcq1 step_mark1 0 (cur wAcq1) 0
    rfl rfl (by decide)

/-- Claim C10: `create_sync_objects` creates every per-slot fence signaled
(`VK_FENCE_CREATE_SIGNALED_BIT`) and every `images_in_flight_` entry as
`VK_NULL_HANDLE`, so from the initial state the first slot-fence wait is
already enabled (the acquire step fires) and the first per-image wait is
skipped (its guard holds vacuously, so the mark step fires): no startup
deadlock. -/
theorem claim10_no_startup_deadlock :
    (∀ s : Fin 2, initState.fenceSignaled s = true)
    ∧ (∀ i : Nat, initState.imagesInFlight i = none)
    ∧ Step 1 initState wAcq0
    ∧ Step 1 wAcq0 wMark0 :=
  ⟨fun _ => rfl, fun _ => rfl, step_acq0, step_mark0⟩

end VulkanFoundations
